import Mathlib

/-!
Verification of the fightcade-api client library (xBiggs/fightcade-api).

The library is a thin typed wrapper over the Fightcade web service: each
operation builds a JSON request payload, performs a single POST, and
validates the JSON response against a declared schema before returning the
parsed value or failing.  The repository contains three generations of the
client:

* `src/src/fightcade-api.ts` — the current generation: zod schemas, one
  options-bag parameter per operation, omitted options are left out of the
  request payload (spread `...args`).
* `src/src/fightcade-api.mts` — a positional-parameter generation: the same
  zod schemas, but optional parameters have TypeScript default values
  (`limit = 15`, …) which are always sent in the payload.
* `fightcade-api.ts` (repository root) — the legacy generation: no runtime
  schema validation, an explicit `res !== 'OK'` status check, and a
  `count !== results.length + 1` check on list responses (throwing
  `RangeError`).

This file embeds the JSON data model, the zod schema subset the library
uses, the response-processing logic of each generation, and the request
builders, and proves the behavioural claims about them.
-/

namespace Fightcade

/-- JSON values as received from the service.  Object fields are an
association list; a missing key models the JavaScript `undefined`, which zod
distinguishes from an explicit `null`. -/
inductive Json where
  | null : Json
  | bool (b : Bool) : Json
  | num (n : Int) : Json
  | str (s : String) : Json
  | arr (elems : List Json) : Json
  | obj (fields : List (String × Json)) : Json

/-- `z.string()` -/
def parseStr : Json → Option String
  | .str s => some s
  | _ => none

/-- `z.number()` (the claims only depend on integral values). -/
def parseNum : Json → Option Int
  | .num n => some n
  | _ => none

/-- `z.boolean()` -/
def parseBool : Json → Option Bool
  | .bool b => some b
  | _ => none

/-- `z.literal('OK')` — the success sentinel of `ResponseSchema`. -/
def litOK (j : Json) : Option Unit :=
  match j with
  | .str s => if s = "OK" then some () else none
  | _ => none

/-- A required object field: absent (`undefined`) fails validation. -/
def reqField (kvs : List (String × Json)) (k : String) (p : Json → Option α) : Option α :=
  Option.bind (List.lookup k kvs) p

/-- `z.optional(...)` at an object field: an absent key validates to `none`;
a present key must satisfy the inner validator. -/
def optField (kvs : List (String × Json)) (k : String) (p : Json → Option α) :
    Option (Option α) :=
  match List.lookup k kvs with
  | none => some none
  | some j => Option.map some (p j)

/-- `z.nullable(...)`: `null` is accepted (as `none`); anything else must
satisfy the inner validator.  Absence is *not* accepted at the field level. -/
def nullable (p : Json → Option α) (j : Json) : Option (Option α) :=
  match j with
  | .null => some none
  | _ => Option.map some (p j)

/-- `T.array()` -/
def arrayOf (p : Json → Option α) : Json → Option (List α)
  | .arr es => es.mapM p
  | _ => none

/-- `z.nativeEnum({Unranked: 0, E: 1, D: 2, C: 3, B: 4, A: 5, S: 6})` -/
def RankEnumSchema (j : Json) : Option Int :=
  match j with
  | .num n => if 0 ≤ n ∧ n ≤ 6 then some n else none
  | _ => none

/-- One entry of the `GameInfoSchema` record. -/
structure GameInfoEntry where
  rank : Option (Option Int)
  num_matches : Option Int
  last_match : Option Int
  time_played : Int
deriving Repr, DecidableEq

/-- The per-entry validator of `GameInfoSchema`. -/
def GameInfoEntrySchema (j : Json) : Option GameInfoEntry :=
  match j with
  | .obj kvs =>
    Option.bind (optField kvs "rank" (nullable RankEnumSchema)) fun rank =>
    Option.bind (optField kvs "num_matches" parseNum) fun num_matches =>
    Option.bind (optField kvs "last_match" parseNum) fun last_match =>
    Option.bind (reqField kvs "time_played" parseNum) fun time_played =>
    some { rank := rank, num_matches := num_matches, last_match := last_match,
           time_played := time_played }
  | _ => none

/-- `GameInfoSchema = z.record(...)`: a record of per-game stats. -/
def GameInfoSchema (j : Json) : Option (List (String × GameInfoEntry)) :=
  match j with
  | .obj kvs => kvs.mapM fun kv => Option.map (fun e => (kv.1, e)) (GameInfoEntrySchema kv.2)
  | _ => none

/-- Fightcade User (parsed form of `UserSchema`). -/
structure User where
  name : String
  gravatar : Option String
  ranked : Bool
  last_online : Option Int
  date : Int
  gameinfo : Option (List (String × GameInfoEntry))
deriving Repr, DecidableEq

/-- `UserSchema` -/
def UserSchema (j : Json) : Option User :=
  match j with
  | .obj kvs =>
    Option.bind (reqField kvs "name" parseStr) fun name =>
    Option.bind (optField kvs "gravatar" parseStr) fun gravatar =>
    Option.bind (reqField kvs "ranked" parseBool) fun ranked =>
    Option.bind (optField kvs "last_online" parseNum) fun last_online =>
    Option.bind (reqField kvs "date" parseNum) fun date =>
    Option.bind (optField kvs "gameinfo" GameInfoSchema) fun gameinfo =>
    some { name := name, gravatar := gravatar, ranked := ranked,
           last_online := last_online, date := date, gameinfo := gameinfo }
  | _ => none

/-- Fightcade Country (parsed form of `CountrySchema`). -/
structure Country where
  iso_code : String
  full_name : String
deriving Repr, DecidableEq

/-- `CountrySchema` -/
def CountrySchema (j : Json) : Option Country :=
  match j with
  | .obj kvs =>
    Option.bind (reqField kvs "iso_code" parseStr) fun iso_code =>
    Option.bind (reqField kvs "full_name" parseStr) fun full_name =>
    some { iso_code := iso_code, full_name := full_name }
  | _ => none

/-- The parsed value of the union `CountrySchema.or(z.string())`: the union
is preserved, not coerced to a single shape. -/
inductive CountryField where
  | obj (c : Country) : CountryField
  | str (s : String) : CountryField
deriving Repr, DecidableEq

/-- `CountrySchema.or(z.string())` — zod tries the branches in order. -/
def countryOrString (j : Json) : Option CountryField :=
  match CountrySchema j with
  | some c => some (.obj c)
  | none => Option.map .str (parseStr j)

/-- Fightcade Player (parsed form of `PlayerSchema`). -/
structure Player where
  name : String
  country : CountryField
  rank : Option (Option Int)
  score : Option (Option Int)
  gameinfo : Option (List (String × GameInfoEntry))
deriving Repr, DecidableEq

/-- `PlayerSchema` -/
def PlayerSchema (j : Json) : Option Player :=
  match j with
  | .obj kvs =>
    Option.bind (reqField kvs "name" parseStr) fun name =>
    Option.bind (reqField kvs "country" countryOrString) fun country =>
    Option.bind (optField kvs "rank" (nullable RankEnumSchema)) fun rank =>
    Option.bind (optField kvs "score" (nullable parseNum)) fun score =>
    Option.bind (optField kvs "gameinfo" GameInfoSchema) fun gameinfo =>
    some { name := name, country := country, rank := rank, score := score,
           gameinfo := gameinfo }
  | _ => none

/-- The parsed `ranked` field of a Replay:
`z.nullable(z.number().or(z.literal('cancelled')))`. -/
inductive RankedField where
  | num (n : Int) : RankedField
  | cancelled : RankedField
  | null : RankedField
deriving Repr, DecidableEq

/-- Validator for the Replay `ranked` field.  `null` is accepted, a number is
accepted, the literal string `cancelled` is accepted; an absent field is
handled (and rejected) at the object level by `reqField`. -/
def rankedOf (j : Json) : Option RankedField :=
  match j with
  | .null => some .null
  | .num n => some (.num n)
  | .str s => if s = "cancelled" then some .cancelled else none
  | _ => none

/-- Fightcade Replay (parsed form of `ReplaySchema`). -/
structure Replay where
  quarkid : String
  channelname : String
  date : Int
  duration : Int
  emulator : String
  gameid : String
  num_matches : Option Int
  players : List Player
  ranked : RankedField
  replay_file : Option String
  realtime_views : Option Int
  saved_views : Option Int
deriving Repr, DecidableEq

/-- `ReplaySchema` -/
def ReplaySchema (j : Json) : Option Replay :=
  match j with
  | .obj kvs =>
    Option.bind (reqField kvs "quarkid" parseStr) fun quarkid =>
    Option.bind (reqField kvs "channelname" parseStr) fun channelname =>
    Option.bind (reqField kvs "date" parseNum) fun date =>
    Option.bind (reqField kvs "duration" parseNum) fun duration =>
    Option.bind (reqField kvs "emulator" parseStr) fun emulator =>
    Option.bind (reqField kvs "gameid" parseStr) fun gameid =>
    Option.bind (optField kvs "num_matches" parseNum) fun num_matches =>
    Option.bind (reqField kvs "players" (arrayOf PlayerSchema)) fun players =>
    Option.bind (reqField kvs "ranked" rankedOf) fun ranked =>
    Option.bind (optField kvs "replay_file" parseStr) fun replay_file =>
    Option.bind (optField kvs "realtime_views" parseNum) fun realtime_views =>
    Option.bind (optField kvs "saved_views" parseNum) fun saved_views =>
    some { quarkid := quarkid, channelname := channelname, date := date,
           duration := duration, emulator := emulator, gameid := gameid,
           num_matches := num_matches, players := players, ranked := ranked,
           replay_file := replay_file, realtime_views := realtime_views,
           saved_views := saved_views }
  | _ => none

/-- Fightcade Replay of the `.mts` generation, whose `ReplaySchema` declares
`num_matches: z.number()` (required) and `ranked: z.number()` (a plain
number: neither `null` nor the `cancelled` sentinel is accepted). -/
structure ReplayMts where
  quarkid : String
  channelname : String
  date : Int
  duration : Int
  emulator : String
  gameid : String
  num_matches : Int
  players : List Player
  ranked : Int
  replay_file : Option String
  realtime_views : Option Int
  saved_views : Option Int
deriving Repr, DecidableEq

/-- `ReplaySchema` of `src/src/fightcade-api.mts`. -/
def ReplaySchemaMts (j : Json) : Option ReplayMts :=
  match j with
  | .obj kvs =>
    Option.bind (reqField kvs "quarkid" parseStr) fun quarkid =>
    Option.bind (reqField kvs "channelname" parseStr) fun channelname =>
    Option.bind (reqField kvs "date" parseNum) fun date =>
    Option.bind (reqField kvs "duration" parseNum) fun duration =>
    Option.bind (reqField kvs "emulator" parseStr) fun emulator =>
    Option.bind (reqField kvs "gameid" parseStr) fun gameid =>
    Option.bind (reqField kvs "num_matches" parseNum) fun num_matches =>
    Option.bind (reqField kvs "players" (arrayOf PlayerSchema)) fun players =>
    Option.bind (reqField kvs "ranked" parseNum) fun ranked =>
    Option.bind (optField kvs "replay_file" parseStr) fun replay_file =>
    Option.bind (optField kvs "realtime_views" parseNum) fun realtime_views =>
    Option.bind (optField kvs "saved_views" parseNum) fun saved_views =>
    some { quarkid := quarkid, channelname := channelname, date := date,
           duration := duration, emulator := emulator, gameid := gameid,
           num_matches := num_matches, players := players, ranked := ranked,
           replay_file := replay_file, realtime_views := realtime_views,
           saved_views := saved_views }
  | _ => none

/-- Fightcade Game (parsed form of `GameSchema`). -/
structure Game where
  gameid : String
  romof : Option String
  name : String
  year : Option String
  publisher : Option String
  emulator : String
  available_for : Int
  system : String
  ranked : Bool
  training : Option Bool
  genres : Option (List String)
deriving Repr, DecidableEq

/-- `z.string().array()` -/
def stringArray (j : Json) : Option (List String) :=
  match j with
  | .arr es => es.mapM parseStr
  | _ => none

/-- `GameSchema` -/
def GameSchema (j : Json) : Option Game :=
  match j with
  | .obj kvs =>
    Option.bind (reqField kvs "gameid" parseStr) fun gameid =>
    Option.bind (optField kvs "romof" parseStr) fun romof =>
    Option.bind (reqField kvs "name" parseStr) fun name =>
    Option.bind (optField kvs "year" parseStr) fun year =>
    Option.bind (optField kvs "publisher" parseStr) fun publisher =>
    Option.bind (reqField kvs "emulator" parseStr) fun emulator =>
    Option.bind (reqField kvs "available_for" parseNum) fun available_for =>
    Option.bind (reqField kvs "system" parseStr) fun system =>
    Option.bind (reqField kvs "ranked" parseBool) fun ranked =>
    Option.bind (optField kvs "training" parseBool) fun training =>
    Option.bind (optField kvs "genres" stringArray) fun genres =>
    some { gameid := gameid, romof := romof, name := name, year := year,
           publisher := publisher, emulator := emulator,
           available_for := available_for, system := system, ranked := ranked,
           training := training, genres := genres }
  | _ => none

/-- `VideoURLResponse = z.record(z.string())` — the FightcadeVids response is
a flat string-to-string map with no status field. -/
def VideoURLResponse (j : Json) : Option (List (String × String)) :=
  match j with
  | .obj kvs => kvs.mapM fun kv => Option.map (fun s => (kv.1, s)) (parseStr kv.2)
  | _ => none

/-- The nested `{results: Replay[], count: number}` pair of
`ReplayResultsSchema`. -/
structure ReplayResults where
  results : List Replay
  count : Int
deriving Repr, DecidableEq

/-- `ReplayResultsSchema` -/
def ReplayResultsSchema (j : Json) : Option ReplayResults :=
  match j with
  | .obj kvs =>
    Option.bind (reqField kvs "results" (arrayOf ReplaySchema)) fun results =>
    Option.bind (reqField kvs "count" parseNum) fun count =>
    some { results := results, count := count }
  | _ => none

/-- `ReplayResultsResponseSchema = ResponseSchema.merge({results: ReplayResultsSchema})`:
the top-level `res` field must be the literal `OK`. -/
def ReplayResultsResponseSchema (j : Json) : Option ReplayResults :=
  match j with
  | .obj kvs =>
    Option.bind (reqField kvs "res" litOK) fun _ =>
    reqField kvs "results" ReplayResultsSchema
  | _ => none

/-- The nested `{results: Player[], count: number}` pair of
`PlayerResultsSchema`. -/
structure PlayerResults where
  results : List Player
  count : Int
deriving Repr, DecidableEq

/-- `PlayerResultsSchema` -/
def PlayerResultsSchema (j : Json) : Option PlayerResults :=
  match j with
  | .obj kvs =>
    Option.bind (reqField kvs "results" (arrayOf PlayerSchema)) fun results =>
    Option.bind (reqField kvs "count" parseNum) fun count =>
    some { results := results, count := count }
  | _ => none

/-- `PlayerResultsResponseSchema` -/
def PlayerResultsResponseSchema (j : Json) : Option PlayerResults :=
  match j with
  | .obj kvs =>
    Option.bind (reqField kvs "res" litOK) fun _ =>
    reqField kvs "results" PlayerResultsSchema
  | _ => none

/-- `UserResponseSchema = ResponseSchema.merge({user: UserSchema})`, with the
`.user` projection applied as in `GetUser`. -/
def UserResponseSchema (j : Json) : Option User :=
  match j with
  | .obj kvs =>
    Option.bind (reqField kvs "res" litOK) fun _ =>
    reqField kvs "user" UserSchema
  | _ => none

/-- Response processing of the current-generation `GetUser`:
`UserResponseSchema.parse(await response.json()).user`.  A failed parse is a
thrown `ZodError`, modelled as `none`. -/
def GetUser (j : Json) : Option User :=
  UserResponseSchema j

/-- Response processing of the current-generation `GetReplay`:
`ReplaySchema.parse(ReplayResultsResponseSchema.parse(json).results.results.at(0))`.
`.at(0)` of an empty list is `undefined`, which `ReplaySchema.parse` rejects;
re-parsing an already-validated element succeeds and returns it unchanged. -/
def GetReplay (j : Json) : Option Replay :=
  match ReplayResultsResponseSchema j with
  | some rr =>
    match rr.results.head? with
    | some r => some r
    | none => none
  | none => none

/-- Response processing of the current-generation `GetReplays` (and
`GetUserReplays`): `ReplayResultsResponseSchema.parse(json).results.results`,
with no constraint relating `count` to the list length. -/
def GetReplays (j : Json) : Option (List Replay) :=
  match ReplayResultsResponseSchema j with
  | some rr => some rr.results
  | none => none

/-- Response processing of the current-generation `GetRankings`. -/
def GetRankings (j : Json) : Option (List Player) :=
  match PlayerResultsResponseSchema j with
  | some pr => some pr.results
  | none => none

/-- Response processing of the deprecated `GetVideoURLs`: the validated
string-to-string map is returned as-is; the requested ids only shape the
request (`{ids: [...]}`), not the result. -/
def GetVideoURLs (_replays : List String) (j : Json) : Option (List (String × String)) :=
  VideoURLResponse j

/-- Errors of the deprecated `GetVideoURL`: a zod parse failure of the
response map, or the thrown `Error` naming the missing challenge id. -/
inductive VideoErr where
  | parseErr : VideoErr
  | notFound (quarkid : String) : VideoErr
deriving Repr, DecidableEq

/-- Response processing of the deprecated `GetVideoURL` (string overload):
`const url = VideoURLResponse.parse(json)[quarkid]; if (url) return url;
throw Error(...)`.  JavaScript truthiness makes both a missing key and an
empty string fall through to the same throw site. -/
def GetVideoURL (replay : String) (j : Json) : Except VideoErr String :=
  match VideoURLResponse j with
  | none => .error .parseErr
  | some urls =>
    match List.lookup replay urls with
    | some url => if url ≠ "" then .ok url else .error (.notFound replay)
    | none => .error (.notFound replay)

/-- The fixed base URLs of the client (`const URL = {...}`). -/
def URL.API : String := "https://www.fightcade.com/api/"

/-- Replay viewer base URL. -/
def URL.REPLAY : String := "https://replay.fightcade.com/"

/-- FightcadeVids endpoint. -/
def URL.VIDS : String := "https://fightcadevids.com/api/videolinks"

/-- `GetReplayURL`: the pure URL helper. -/
def GetReplayURL (replay : Replay) : String :=
  URL.REPLAY ++ replay.emulator ++ "/" ++ replay.gameid ++ "/" ++ replay.quarkid

/-- Errors thrown by the legacy generation: `Error(msg)` or `RangeError()`. -/
inductive LegacyErr where
  | err (msg : String) : LegacyErr
  | rangeErr : LegacyErr
deriving Repr, DecidableEq

/-- The legacy generation performs no runtime schema validation: the
deserialized response is used directly through its declared TypeScript
interface `{res, results: {results, count}}` (flattened here). -/
structure LegacyListResponse (α : Type) where
  res : String
  results : List α
  count : Int
deriving Repr, DecidableEq

/-- Legacy `{res, user}` response interface. -/
structure LegacyUserResponse where
  res : String
  user : User
deriving Repr, DecidableEq

/-- Legacy `GetUser`: `res === 'OK'` returns the user; the distinguished
`user not found` status and every other non-OK status are rethrown as
`Error` carrying the status string. -/
def GetUserLegacy (resp : LegacyUserResponse) : Except LegacyErr User :=
  if resp.res = "OK" then .ok resp.user
  else if resp.res = "user not found" then .error (.err "user not found")
  else .error (.err resp.res)

/-- Legacy `GetReplay`: a non-OK status throws `Error(res)`; an `undefined`
first result (empty list) throws `RangeError`; otherwise the first result is
returned. -/
def GetReplayLegacy (resp : LegacyListResponse Replay) : Except LegacyErr Replay :=
  if resp.res ≠ "OK" then .error (.err resp.res)
  else
    match resp.results.head? with
    | none => .error .rangeErr
    | some r => .ok r

/-- Legacy `GetReplays`: a non-OK status throws `Error(res)`; then
`count !== results.length + 1` throws `RangeError`; otherwise the results
list is returned. -/
def GetReplaysLegacy (resp : LegacyListResponse Replay) : Except LegacyErr (List Replay) :=
  if resp.res ≠ "OK" then .error (.err resp.res)
  else if resp.count ≠ resp.results.length + 1 then .error .rangeErr
  else .ok resp.results

/-- Legacy `GetUserReplays`: same response processing as legacy `GetReplays`. -/
def GetUserReplaysLegacy (resp : LegacyListResponse Replay) : Except LegacyErr (List Replay) :=
  if resp.res ≠ "OK" then .error (.err resp.res)
  else if resp.count ≠ resp.results.length + 1 then .error .rangeErr
  else .ok resp.results

/-- Legacy `GetRankings`: same off-by-one count check over Player results. -/
def GetRankingsLegacy (resp : LegacyListResponse Player) : Except LegacyErr (List Player) :=
  if resp.res ≠ "OK" then .error (.err resp.res)
  else if resp.count ≠ resp.results.length + 1 then .error .rangeErr
  else .ok resp.results

/-- Caller-side options bag of the current-generation `GetReplays`
(`{gameid?, limit?, offset?, best?, since?, ranked?}`); `none` models an
omitted field. -/
structure ReplaysArgs where
  gameid : Option String := none
  limit : Option Int := none
  offset : Option Int := none
  best : Option Bool := none
  since : Option Int := none
  ranked : Option Bool := none
deriving Repr, DecidableEq

/-- The `searchquarks` request payload of the current generation; an
`Option` field that is `none` is a key that is absent from the serialized
JSON body. -/
structure ReplaysRequest where
  req : String
  gameid : Option String
  limit : Option Int
  offset : Option Int
  best : Option Bool
  since : Option Int
  ranked : Option Bool
deriving Repr, DecidableEq

/-- Request building of the current-generation `GetReplays`:
`JSON.stringify({req: 'searchquarks', ...args})` — omitted options are
simply not present in the payload. -/
def GetReplaysRequest (args : ReplaysArgs) : ReplaysRequest :=
  { req := "searchquarks", gameid := args.gameid, limit := args.limit,
    offset := args.offset, best := args.best, since := args.since,
    ranked := args.ranked }

/-- Options bag of the current-generation `GetUserReplays`. -/
structure UserReplaysArgs where
  limit : Option Int := none
  offset : Option Int := none
  best : Option Bool := none
  since : Option Int := none
  ranked : Option Bool := none
deriving Repr, DecidableEq

/-- The current-generation `GetUserReplays` payload. -/
structure UserReplaysRequest where
  req : String
  username : String
  limit : Option Int
  offset : Option Int
  best : Option Bool
  since : Option Int
  ranked : Option Bool
deriving Repr, DecidableEq

/-- Request building of the current-generation `GetUserReplays`:
`{req: 'searchquarks', username, ...args}`. -/
def GetUserReplaysRequest (username : String) (args : UserReplaysArgs) : UserReplaysRequest :=
  { req := "searchquarks", username := username, limit := args.limit,
    offset := args.offset, best := args.best, since := args.since,
    ranked := args.ranked }

/-- Options bag of the current-generation `GetRankings`. -/
structure RankingsArgs where
  limit : Option Int := none
  offset : Option Int := none
  byElo : Option Bool := none
  recent : Option Bool := none
deriving Repr, DecidableEq

/-- The current-generation `searchrankings` payload. -/
structure RankingsRequest where
  req : String
  gameid : String
  limit : Option Int
  offset : Option Int
  byElo : Option Bool
  recent : Option Bool
deriving Repr, DecidableEq

/-- Request building of the current-generation `GetRankings`:
`{req: 'searchrankings', gameid, ...args}`. -/
def GetRankingsRequest (gameid : String) (args : RankingsArgs) : RankingsRequest :=
  { req := "searchrankings", gameid := gameid, limit := args.limit,
    offset := args.offset, byElo := args.byElo, recent := args.recent }

/-- Options bag of the current-generation `GetEvents`. -/
structure EventsArgs where
  gameid : Option String := none
  limit : Option Int := none
  offset : Option Int := none
deriving Repr, DecidableEq

/-- The current-generation `searchevents` payload. -/
structure EventsRequest where
  req : String
  gameid : Option String
  limit : Option Int
  offset : Option Int
deriving Repr, DecidableEq

/-- Request building of the current-generation `GetEvents`:
`{req: 'searchevents', ...args}`. -/
def GetEventsRequest (args : EventsArgs) : EventsRequest :=
  { req := "searchevents", gameid := args.gameid, limit := args.limit,
    offset := args.offset }

/-- The `.mts` generation `searchquarks` payload: every field is always
sent. -/
structure ReplaysRequestMts where
  req : String
  limit : Int
  offset : Int
  best : Bool
  since : Int
deriving Repr, DecidableEq

/-- Request building of the `.mts` generation `GetReplays(limit = 15,
offset = 0, best = false, since = 0)`: a `none` argument models a
caller-omitted positional parameter, which TypeScript replaces by the
declared default before the payload is built. -/
def GetReplaysRequestMts (limit : Option Int) (offset : Option Int)
    (best : Option Bool) (since : Option Int) : ReplaysRequestMts :=
  { req := "searchquarks", limit := limit.getD 15, offset := offset.getD 0,
    best := best.getD false, since := since.getD 0 }

/-- The `.mts` generation `GetUserReplays` payload. -/
structure UserReplaysRequestMts where
  req : String
  username : String
  limit : Int
  offset : Int
  best : Bool
  since : Int
deriving Repr, DecidableEq

/-- Request building of the `.mts` generation `GetUserReplays(username,
limit = 15, offset = 0, best = false, since = 0)`. -/
def GetUserReplaysRequestMts (username : String) (limit : Option Int)
    (offset : Option Int) (best : Option Bool) (since : Option Int) :
    UserReplaysRequestMts :=
  { req := "searchquarks", username := username, limit := limit.getD 15,
    offset := offset.getD 0, best := best.getD false, since := since.getD 0 }

/-- The `.mts` generation `searchrankings` payload. -/
structure RankingsRequestMts where
  req : String
  gameid : String
  limit : Int
  offset : Int
  byElo : Bool
  recent : Bool
deriving Repr, DecidableEq

/-- Request building of the `.mts` generation `GetRankings(gameid,
limit = 15, offset = 0, byElo = true, recent = true)`. -/
def GetRankingsRequestMts (gameid : String) (limit : Option Int)
    (offset : Option Int) (byElo : Option Bool) (recent : Option Bool) :
    RankingsRequestMts :=
  { req := "searchrankings", gameid := gameid, limit := limit.getD 15,
    offset := offset.getD 0, byElo := byElo.getD true, recent := recent.getD true }

/-- The `.mts` generation `searchevents` payload. -/
structure EventsRequestMts where
  req : String
  gameid : String
  limit : Int
  offset : Int
deriving Repr, DecidableEq

/-- Request building of the `.mts` generation `GetEvents(gameid, limit = 15,
offset = 0)`. -/
def GetEventsRequestMts (gameid : String) (limit : Option Int)
    (offset : Option Int) : EventsRequestMts :=
  { req := "searchevents", gameid := gameid, limit := limit.getD 15,
    offset := offset.getD 0 }

/-- A concrete success response whose results list is empty. -/
def emptyOkResultsJson : Json :=
  .obj [("res", .str "OK"),
        ("results", .obj [("results", .arr []), ("count", .num 0)])]

/-- A concrete valid user, for witnesses. -/
def sampleUser : User :=
  { name := "biggs", gravatar := none, ranked := true, last_online := none,
    date := 1600000000000, gameinfo := none }

/-- The required fields of a concrete Replay object, without `ranked`. -/
def replayBaseKvs : List (String × Json) :=
  [("quarkid", .str "1638725293444-1085"), ("channelname", .str "umk3"),
   ("date", .num 1638725293444), ("duration", .num 90),
   ("emulator", .str "fbneo"), ("gameid", .str "umk3"), ("players", .arr [])]

/-- A concrete Replay JSON object whose `ranked` field is the given value,
or absent when `none`. -/
def mkReplayJson : Option Json → Json
  | some rv => .obj (("ranked", rv) :: replayBaseKvs)
  | none => .obj replayBaseKvs

/-- The parsed form of `replayBaseKvs` (with a placeholder `ranked`). -/
def baseReplay : Replay :=
  { quarkid := "1638725293444-1085", channelname := "umk3",
    date := 1638725293444, duration := 90, emulator := "fbneo",
    gameid := "umk3", num_matches := none, players := [], ranked := .null,
    replay_file := none, realtime_views := none, saved_views := none }

/-- The required fields of a concrete `.mts`-generation Replay object,
without `ranked` (`num_matches` is required there). -/
def replayBaseKvsMts : List (String × Json) :=
  ("num_matches", .num 3) :: replayBaseKvs

/-- A concrete `.mts` Replay JSON object whose `ranked` field is the given
value, or absent when `none`. -/
def mkReplayJsonMts : Option Json → Json
  | some rv => .obj (("ranked", rv) :: replayBaseKvsMts)
  | none => .obj replayBaseKvsMts

/-- The parsed form of `replayBaseKvsMts` (with a placeholder `ranked`). -/
def baseReplayMts : ReplayMts :=
  { quarkid := "1638725293444-1085", channelname := "umk3",
    date := 1638725293444, duration := 90, emulator := "fbneo",
    gameid := "umk3", num_matches := 3, players := [], ranked := 0,
    replay_file := none, realtime_views := none, saved_views := none }

/-- C1: a success-status response with an empty results list makes GetReplay
fail — the current generation rejects the `undefined` first element
(`ReplaySchema.parse` of `.at(0)`), the legacy generation throws its
dedicated `RangeError` — and neither resolves with a malformed Replay. -/
theorem getReplay_empty_results_fails :
    (∀ (j : Json) (rr : ReplayResults), ReplayResultsResponseSchema j = some rr →
      rr.results = [] → GetReplay j = none) ∧
    (∀ resp : LegacyListResponse Replay, resp.res = "OK" → resp.results = [] →
      GetReplayLegacy resp = .error .rangeErr) := by
  constructor
  · intro j rr h hrr
    simp [GetReplay, h, hrr]
  · intro resp h hrr
    simp [GetReplayLegacy, h, hrr]

/-- Witness for C1 at a concrete empty success response. -/
theorem getReplay_empty_results_fails_witness :
    GetReplay emptyOkResultsJson = none ∧
    GetReplayLegacy { res := "OK", results := [], count := 0 } = .error .rangeErr :=
  ⟨getReplay_empty_results_fails.1 emptyOkResultsJson { results := [], count := 0 } rfl rfl,
   getReplay_empty_results_fails.2 { res := "OK", results := [], count := 0 } rfl rfl⟩

/-- C2: a response whose status marker is not the success sentinel `OK`
never yields a User — the legacy generation throws an `Error` carrying the
service-reported status string exactly (including for `user not found`),
and the current generation rejects the response during validation. -/
theorem getUser_non_ok_status_errors :
    (∀ resp : LegacyUserResponse, resp.res ≠ "OK" →
      GetUserLegacy resp = .error (.err resp.res)) ∧
    (∀ (kvs : List (String × Json)) (s : String),
      List.lookup "res" kvs = some (.str s) → s ≠ "OK" →
      GetUser (.obj kvs) = none) := by
  constructor
  · intro resp h
    by_cases h2 : resp.res = "user not found"
    · simp [GetUserLegacy, h, h2]
    · simp [GetUserLegacy, h, h2]
  · intro kvs s h h2
    simp [GetUser, UserResponseSchema, reqField, h, litOK, h2]

/-- Witness for C2 at the mocked `user not found` response. -/
theorem getUser_non_ok_status_errors_witness :
    GetUserLegacy { res := "user not found", user := sampleUser } =
      .error (.err "user not found") ∧
    GetUser (.obj [("res", .str "user not found")]) = none :=
  ⟨getUser_non_ok_status_errors.1 { res := "user not found", user := sampleUser } (by decide),
   getUser_non_ok_status_errors.2 [("res", .str "user not found")] "user not found" rfl (by decide)⟩

/-- C3 counterexample: in the current (options-bag) generation, omitting
`limit` does not put `limit: 15` into the request payload — the key is
absent from `{req: 'searchquarks', ...args}` altogether. -/
theorem getReplays_omitted_limit_not_defaulted :
    GetReplaysRequest {} =
      { req := "searchquarks", gameid := none, limit := none, offset := none,
        best := none, since := none, ranked := none } ∧
    (GetReplaysRequest {}).limit ≠ some 15 := by
  constructor
  · rfl
  · decide

/-- C3 (amended): the options-bag generation forwards exactly the
caller-supplied options (omitted options are absent from the payload),
while the positional `.mts` generation always sends the documented default
values for omitted parameters — limit 15, offset 0, best false, since 0,
byElo true, recent true. -/
theorem request_builders_defaults :
    (∀ args : ReplaysArgs, GetReplaysRequest args =
      { req := "searchquarks", gameid := args.gameid, limit := args.limit,
        offset := args.offset, best := args.best, since := args.since,
        ranked := args.ranked }) ∧
    (GetReplaysRequestMts none none none none =
      { req := "searchquarks", limit := 15, offset := 0, best := false, since := 0 }) ∧
    (∀ u : String, GetUserReplaysRequestMts u none none none none =
      { req := "searchquarks", username := u, limit := 15, offset := 0,
        best := false, since := 0 }) ∧
    (∀ g : String, GetRankingsRequestMts g none none none none =
      { req := "searchrankings", gameid := g, limit := 15, offset := 0,
        byElo := true, recent := true }) ∧
    (∀ g : String, GetEventsRequestMts g none none =
      { req := "searchevents", gameid := g, limit := 15, offset := 0 }) ∧
    (∀ (g : String) (args : RankingsArgs), GetRankingsRequest g args =
      { req := "searchrankings", gameid := g, limit := args.limit,
        offset := args.offset, byElo := args.byElo, recent := args.recent }) ∧
    (GetEventsRequest {} =
      { req := "searchevents", gameid := none, limit := none, offset := none }) :=
  ⟨fun _ => rfl, rfl, fun _ => rfl, fun _ => rfl, fun _ => rfl, fun _ _ => rfl, rfl⟩

/-- C4: on success-status responses, the legacy list operations return the
results list exactly when `count = results.length + 1` and throw
`RangeError` otherwise, while the current generation performs no count
check: a validated response yields its results list for every numeric
`count`. -/
theorem legacy_count_check_vs_current :
    (∀ resp : LegacyListResponse Replay, resp.res = "OK" →
      ((GetReplaysLegacy resp = .ok resp.results ↔
          resp.count = resp.results.length + 1) ∧
       (resp.count ≠ resp.results.length + 1 →
          GetReplaysLegacy resp = .error .rangeErr))) ∧
    (∀ resp : LegacyListResponse Replay, resp.res = "OK" →
      ((GetUserReplaysLegacy resp = .ok resp.results ↔
          resp.count = resp.results.length + 1) ∧
       (resp.count ≠ resp.results.length + 1 →
          GetUserReplaysLegacy resp = .error .rangeErr))) ∧
    (∀ resp : LegacyListResponse Player, resp.res = "OK" →
      ((GetRankingsLegacy resp = .ok resp.results ↔
          resp.count = resp.results.length + 1) ∧
       (resp.count ≠ resp.results.length + 1 →
          GetRankingsLegacy resp = .error .rangeErr))) ∧
    (∀ (j : Json) (rr : ReplayResults), ReplayResultsResponseSchema j = some rr →
      GetReplays j = some rr.results) ∧
    (∀ (rs : List Json) (replays : List Replay) (c : Int),
      arrayOf ReplaySchema (.arr rs) = some replays →
      ReplayResultsSchema (.obj [("results", .arr rs), ("count", .num c)]) =
        some { results := replays, count := c }) := by
  refine ⟨?_, ?_, ?_, ?_, ?_⟩
  · intro resp h
    constructor
    · constructor
      · intro hok
        by_contra hc
        simp [GetReplaysLegacy, h, hc] at hok
      · intro hc
        simp [GetReplaysLegacy, h, hc]
    · intro hc
      simp [GetReplaysLegacy, h, hc]
  · intro resp h
    constructor
    · constructor
      · intro hok
        by_contra hc
        simp [GetUserReplaysLegacy, h, hc] at hok
      · intro hc
        simp [GetUserReplaysLegacy, h, hc]
    · intro hc
      simp [GetUserReplaysLegacy, h, hc]
  · intro resp h
    constructor
    · constructor
      · intro hok
        by_contra hc
        simp [GetRankingsLegacy, h, hc] at hok
      · intro hc
        simp [GetRankingsLegacy, h, hc]
    · intro hc
      simp [GetRankingsLegacy, h, hc]
  · intro j rr h
    simp [GetReplays, h]
  · intro rs replays c h
    have h1 : List.lookup "results" [("results", Json.arr rs), ("count", Json.num c)] =
        some (Json.arr rs) := rfl
    have h2 : List.lookup "count" [("results", Json.arr rs), ("count", Json.num c)] =
        some (Json.num c) := rfl
    simp [ReplayResultsSchema, reqField, h1, h2, h, parseNum]

/-- Witness for C4 at concrete responses. -/
theorem legacy_count_check_vs_current_witness :
    GetReplaysLegacy { res := "OK", results := ([] : List Replay), count := 1 } = .ok [] ∧
    GetUserReplaysLegacy { res := "OK", results := ([] : List Replay), count := 5 } =
      .error .rangeErr ∧
    GetRankingsLegacy { res := "OK", results := ([] : List Player), count := 1 } = .ok [] ∧
    GetReplays emptyOkResultsJson = some [] ∧
    ReplayResultsSchema (.obj [("results", .arr []), ("count", .num 42)]) =
      some { results := [], count := 42 } :=
  ⟨(legacy_count_check_vs_current.1 { res := "OK", results := [], count := 1 } rfl).1.mpr
      (by decide),
   (legacy_count_check_vs_current.2.1 { res := "OK", results := [], count := 5 } rfl).2
      (by decide),
   (legacy_count_check_vs_current.2.2.1 { res := "OK", results := [], count := 1 } rfl).1.mpr
      (by decide),
   legacy_count_check_vs_current.2.2.2.1 emptyOkResultsJson { results := [], count := 0 } rfl,
   legacy_count_check_vs_current.2.2.2.2 [] [] 42 rfl⟩

/-- C5: the Player validator accepts a bare-string country and an
`{iso_code, full_name}` object country alike, and preserves each shape in
the parsed value instead of coercing one into the other. -/
theorem playerSchema_country_union :
    (∀ nm s : String,
      PlayerSchema (.obj [("name", .str nm), ("country", .str s)]) =
        some { name := nm, country := .str s, rank := none, score := none,
               gameinfo := none }) ∧
    (∀ nm iso full : String,
      PlayerSchema (.obj [("name", .str nm),
          ("country", .obj [("iso_code", .str iso), ("full_name", .str full)])]) =
        some { name := nm, country := .obj { iso_code := iso, full_name := full },
               rank := none, score := none, gameinfo := none }) :=
  ⟨fun _ _ => rfl, fun _ _ _ => rfl⟩

/-- C6 counterexample: a Replay object lacking the `ranked` field entirely
does not validate — `z.nullable(...)` requires the key to be present. -/
theorem replaySchema_missing_ranked_rejected :
    ReplaySchema (mkReplayJson none) = none := rfl

/-- C6 (amended): in the current `src/src/fightcade-api.ts` generation, the
Replay validator accepts a `ranked` field that is a number, the `cancelled`
sentinel, or `null`, but the field must be present: an object lacking it
entirely fails validation.  In the `src/src/fightcade-api.mts` generation,
`ranked` is a plain `z.number()`: the `cancelled` sentinel, `null`, and an
absent field are all rejected. -/
theorem replaySchema_ranked_forms :
    ((∀ n : Int, ReplaySchema (mkReplayJson (some (.num n))) =
        some { baseReplay with ranked := .num n }) ∧
     ReplaySchema (mkReplayJson (some (.str "cancelled"))) =
       some { baseReplay with ranked := .cancelled } ∧
     ReplaySchema (mkReplayJson (some .null)) =
       some { baseReplay with ranked := .null } ∧
     ReplaySchema (mkReplayJson none) = none) ∧
    ((∀ n : Int, ReplaySchemaMts (mkReplayJsonMts (some (.num n))) =
        some { baseReplayMts with ranked := n }) ∧
     ReplaySchemaMts (mkReplayJsonMts (some (.str "cancelled"))) = none ∧
     ReplaySchemaMts (mkReplayJsonMts (some .null)) = none ∧
     ReplaySchemaMts (mkReplayJsonMts none) = none) :=
  ⟨⟨fun _ => rfl, rfl, rfl, rfl⟩, ⟨fun _ => rfl, rfl, rfl, rfl⟩⟩

/-- C7: GetReplayURL is a pure function of its Replay argument: it is the
fixed replay base URL concatenated with emulator, game id and challenge id,
and it agrees on any two Replays that agree on those three fields,
whatever their other fields are. -/
theorem getReplayURL_pure :
    (∀ r : Replay, GetReplayURL r =
      "https://replay.fightcade.com/" ++ r.emulator ++ "/" ++ r.gameid ++ "/" ++
        r.quarkid) ∧
    (∀ r₁ r₂ : Replay, r₁.emulator = r₂.emulator → r₁.gameid = r₂.gameid →
      r₁.quarkid = r₂.quarkid → GetReplayURL r₁ = GetReplayURL r₂) := by
  constructor
  · intro r
    rfl
  · intro r₁ r₂ h1 h2 h3
    simp [GetReplayURL, h1, h2, h3]

/-- Witness for C7: two Replays differing in other fields give the same URL. -/
theorem getReplayURL_pure_witness :
    GetReplayURL baseReplay =
      GetReplayURL { baseReplay with date := 0, saved_views := some 3 } :=
  getReplayURL_pure.2 baseReplay { baseReplay with date := 0, saved_views := some 3 }
    rfl rfl rfl

/-- C8: GetVideoURLs returns exactly the validated string-to-string map of
the secondary service; requested ids that are absent from the response are
simply absent from the result, with no error. -/
theorem getVideoURLs_returns_response_map :
    ∀ (ids : List String) (j : Json) (m : List (String × String)),
      VideoURLResponse j = some m → GetVideoURLs ids j = some m := by
  intro ids j m h
  simpa [GetVideoURLs] using h

/-- Witness for C8: requesting ids `a` and `b` against a response holding
only `a` succeeds with a map containing only `a`. -/
theorem getVideoURLs_returns_response_map_witness :
    VideoURLResponse (.obj [("a", .str "https://video/a")]) =
      some [("a", "https://video/a")] ∧
    GetVideoURLs ["a", "b"] (.obj [("a", .str "https://video/a")]) =
      some [("a", "https://video/a")] ∧
    List.lookup "b" [("a", "https://video/a")] = none :=
  ⟨rfl, getVideoURLs_returns_response_map ["a", "b"] _ _ rfl, rfl⟩

/-- C9: GetVideoURL succeeds only when the returned map binds the requested
id to a non-empty string; an id bound to the empty string throws the same
not-found error as an absent id, and the operation never resolves with the
empty string. -/
theorem getVideoURL_requires_nonempty :
    (∀ (j : Json) (m : List (String × String)) (q : String),
      VideoURLResponse j = some m → List.lookup q m = some "" →
      GetVideoURL q j = .error (.notFound q)) ∧
    (∀ (j : Json) (m : List (String × String)) (q : String),
      VideoURLResponse j = some m → List.lookup q m = none →
      GetVideoURL q j = .error (.notFound q)) ∧
    (∀ (j : Json) (m : List (String × String)) (q u : String),
      VideoURLResponse j = some m → List.lookup q m = some u → u ≠ "" →
      GetVideoURL q j = .ok u) ∧
    (∀ (j : Json) (q : String), GetVideoURL q j ≠ .ok "") := by
  refine ⟨?_, ?_, ?_, ?_⟩
  · intro j m q h hl
    simp [GetVideoURL, h, hl]
  · intro j m q h hl
    simp [GetVideoURL, h, hl]
  · intro j m q u h hl hu
    simp [GetVideoURL, h, hl, hu]
  · intro j q h
    unfold GetVideoURL at h
    split at h
    · simp at h
    · split at h
      · split at h
        · simp_all
        · simp at h
      · simp at h

/-- Witness for C9: an id mapped to the empty string and an absent id yield
the same error, and a non-empty binding succeeds. -/
theorem getVideoURL_requires_nonempty_witness :
    GetVideoURL "a" (.obj [("a", .str "")]) = .error (.notFound "a") ∧
    GetVideoURL "a" (.obj []) = .error (.notFound "a") ∧
    GetVideoURL "a" (.obj [("a", .str "https://video/a")]) = .ok "https://video/a" :=
  ⟨getVideoURL_requires_nonempty.1 (.obj [("a", .str "")]) [("a", "")] "a" rfl rfl,
   getVideoURL_requires_nonempty.2.1 (.obj []) [] "a" rfl rfl,
   getVideoURL_requires_nonempty.2.2.1 (.obj [("a", .str "https://video/a")])
     [("a", "https://video/a")] "a" "https://video/a" rfl rfl (by decide)⟩

/-- Skipping an association-list head whose key differs from the one looked
up. -/
theorem lookup_cons_ne (a k : String) (v : Json) (l : List (String × Json))
    (h : a ≠ k) : List.lookup a ((k, v) :: l) = List.lookup a l := by
  simp [List.lookup, beq_eq_false_iff_ne.mpr h]

/-- C10: the object validators strip unrecognized fields silently — adding
a binding for any key outside the declared field set changes neither the
success nor the value of GameSchema or UserSchema validation, so parsed
values contain only declared fields. -/
theorem schemas_strip_unknown_fields :
    (∀ (kvs : List (String × Json)) (k : String) (v : Json),
      k ∉ (["gameid", "romof", "name", "year", "publisher", "emulator",
            "available_for", "system", "ranked", "training", "genres"] : List String) →
      GameSchema (.obj ((k, v) :: kvs)) = GameSchema (.obj kvs)) ∧
    (∀ (kvs : List (String × Json)) (k : String) (v : Json),
      k ∉ (["name", "gravatar", "ranked", "last_online", "date",
            "gameinfo"] : List String) →
      UserSchema (.obj ((k, v) :: kvs)) = UserSchema (.obj kvs)) := by
  constructor
  · intro kvs k v h
    simp only [List.mem_cons, List.not_mem_nil, or_false, not_or] at h
    obtain ⟨h1, h2, h3, h4, h5, h6, h7, h8, h9, h10, h11⟩ := h
    simp only [GameSchema, reqField, optField]
    rw [lookup_cons_ne "gameid" k v kvs (Ne.symm h1),
        lookup_cons_ne "romof" k v kvs (Ne.symm h2),
        lookup_cons_ne "name" k v kvs (Ne.symm h3),
        lookup_cons_ne "year" k v kvs (Ne.symm h4),
        lookup_cons_ne "publisher" k v kvs (Ne.symm h5),
        lookup_cons_ne "emulator" k v kvs (Ne.symm h6),
        lookup_cons_ne "available_for" k v kvs (Ne.symm h7),
        lookup_cons_ne "system" k v kvs (Ne.symm h8),
        lookup_cons_ne "ranked" k v kvs (Ne.symm h9),
        lookup_cons_ne "training" k v kvs (Ne.symm h10),
        lookup_cons_ne "genres" k v kvs (Ne.symm h11)]
  · intro kvs k v h
    simp only [List.mem_cons, List.not_mem_nil, or_false, not_or] at h
    obtain ⟨h1, h2, h3, h4, h5, h6⟩ := h
    simp only [UserSchema, reqField, optField]
    rw [lookup_cons_ne "name" k v kvs (Ne.symm h1),
        lookup_cons_ne "gravatar" k v kvs (Ne.symm h2),
        lookup_cons_ne "ranked" k v kvs (Ne.symm h3),
        lookup_cons_ne "last_online" k v kvs (Ne.symm h4),
        lookup_cons_ne "date" k v kvs (Ne.symm h5),
        lookup_cons_ne "gameinfo" k v kvs (Ne.symm h6)]

/-- A concrete valid Game object, for the C10 witness. -/
def gameKvs : List (String × Json) :=
  [("gameid", .str "umk3"), ("name", .str "Ultimate Mortal Kombat 3"),
   ("emulator", .str "fbneo"), ("available_for", .num 1),
   ("system", .str "arcade"), ("ranked", .bool true)]

/-- A concrete valid User object, for the C10 witness. -/
def userKvs : List (String × Json) :=
  [("name", .str "biggs"), ("ranked", .bool true), ("date", .num 1600000000000)]

/-- Witness for C10: a concrete unknown key is stripped from both schemas. -/
theorem schemas_strip_unknown_fields_witness :
    GameSchema (.obj (("extra", .null) :: gameKvs)) = GameSchema (.obj gameKvs) ∧
    UserSchema (.obj (("extra", .null) :: userKvs)) = UserSchema (.obj userKvs) :=
  ⟨schemas_strip_unknown_fields.1 gameKvs "extra" .null (by decide),
   schemas_strip_unknown_fields.2 userKvs "extra" .null (by decide)⟩

end Fightcade
